import Mathlib

/-!
Verification of the bootstrap protocol of `bootstrap.go` (package tidb).

The file shallowly embeds the bootstrap code: `bootstrap`, `checkBootstrapped`,
`checkBootstrappedVar`, `doDDLWorks`, `doDMLWorks` and `mustExecute` are
translated from the Go source.  The SQL execution engine (the `Session`
interface with `Execute` and `FinishTxn`) is an external collaborator of the
repository slice; it is modelled from the spec as a deterministic store with
explicit transaction state:

* `Store` is the committed catalog: the set of databases, the set of tables,
  and the rows of the three system tables the bootstrap code writes
  (`mysql.user`, `mysql.GLOBAL_VARIABLES`, `mysql.tidb`).  Schema text of the
  CREATE TABLE statements is opaque data (spec section 6); a statement is
  identified by its semantic shape (`Stmt`).
* `SessionState` carries the committed store, an optional pending
  transaction snapshot, the current database of the session, and a trace of
  the events issued so far (each executed statement, and each FinishTxn
  call), so that claims about statement sequences are statements about the
  trace.
* A select implicitly opens a transaction when none is open (the read
  transaction the probe must terminate); inserts apply to the pending
  snapshot when a transaction is open; COMMIT publishes the pending snapshot;
  a process abort discards the pending snapshot, so the committed store is
  what remains observable.

Rows of `mysql.tidb` are `(VARIABLE_NAME, VARIABLE_VALUE, COMMENT)` triples of
strings; the store is typed by the schema, so the Go type assertion
`row.Data[0].(string)` in `checkBootstrappedVar` cannot fail in the model and
a selected row is simply its `VARIABLE_VALUE` string.
-/

namespace TidbBootstrap

/-- A row of `mysql.user`: Host, User, Password and the twelve privilege
columns of `CreateUserTable`. -/
structure UserRow where
  host : String
  user : String
  password : String
  privs : List String
deriving Repr, DecidableEq

/-- The committed catalog state of the shared store. -/
structure Store where
  databases : List String
  tables : List (String × String)
  userRows : List UserRow
  globalVarRows : List (String × String)
  tidbRows : List (String × String × String)
deriving Repr, DecidableEq

/-- Statements issued by the bootstrap code, identified by semantic shape;
their SQL text is opaque data (spec section 6). -/
inductive Stmt where
  | useDB (db : String)
  | createDB (ifNotExists : Bool) (db : String)
  | createTable (ifNotExists : Bool) (db tbl : String)
  | selectVariableValue (db tbl varName : String)
  | beginTxn
  | insertUserRow (host user password : String) (privs : List String)
  | insertGlobalVariables (rows : List (String × String))
  | insertTidbOnDupKeyUpdate (name value comment valueOnDup : String)
  | commitTxn
deriving Repr, DecidableEq

/-- Error classes of the executor, per spec section 6: namespace/object does
not exist, duplicate key / already exists. -/
inductive ExecErr where
  | databaseNotExists
  | tableNotExists
  | duplicateKey
deriving Repr, DecidableEq

/-- A trace event: an executed statement, or a FinishTxn call. -/
inductive Event where
  | stmt (st : Stmt)
  | finishTxn (rollback : Bool)
deriving Repr, DecidableEq

/-- The session: committed store, optional pending transaction snapshot,
current database, and the trace of events issued so far. -/
structure SessionState where
  committed : Store
  pending : Option Store
  currentDB : Option String
  trace : List Event
deriving Repr, DecidableEq

/-- The view a data statement operates on: the pending snapshot when a
transaction is open, the committed store otherwise. -/
def SessionState.view (s : SessionState) : Store :=
  s.pending.getD s.committed

/-- Write back the view: to the pending snapshot when a transaction is open,
to the committed store otherwise. -/
def SessionState.setView (s : SessionState) (st : Store) : SessionState :=
  match s.pending with
  | some _ => { s with pending := some st }
  | none => { s with committed := st }

/-- Creating a table registers it in the catalog; a freshly created table is
empty, so creation clears the row list of the table being created. -/
def Store.addTable (c : Store) (db tbl : String) : Store :=
  let c := { c with tables := c.tables ++ [(db, tbl)] }
  if db = "mysql" ∧ tbl = "user" then { c with userRows := [] }
  else if db = "mysql" ∧ tbl = "GLOBAL_VARIABLES" then { c with globalVarRows := [] }
  else if db = "mysql" ∧ tbl = "tidb" then { c with tidbRows := [] }
  else c

/-- Sequential duplicate-key check of a multi-row insert: each inserted key
must be absent from the existing keys and from the keys inserted before it. -/
def keysFresh (oldNames : List String) : List (String × String) → Bool
  | [] => true
  | (k, _) :: rest => !(oldNames.contains k) && keysFresh (k :: oldNames) rest

/-- Rows returned by `SELECT VARIABLE_VALUE FROM db.tbl WHERE
VARIABLE_NAME=name`: one single-column row (its string value) per matching
row of `mysql.tidb`. -/
def selectRows (v : Store) (db tbl name : String) : List String :=
  if db = "mysql" ∧ tbl = "tidb" then
    (v.tidbRows.filter (fun r => r.1 = name)).map (fun r => r.2.1)
  else []

/-- Modelled from the spec: `Execute` of the external executor.  Returns the
updated session and either a list of recordsets (one `List String` of rows
per recordset) or a classified error.  Every call appends its statement to
the trace.  DDL is non-transactional (spec section 4.2); a select with no
open transaction implicitly opens one (spec section 4.1 step 2); DML applies
to the open transaction's snapshot; COMMIT publishes it. -/
def execute (s₀ : SessionState) (st : Stmt) :
    SessionState × Except ExecErr (List (List String)) :=
  let s := { s₀ with trace := s₀.trace ++ [Event.stmt st] }
  match st with
  | .useDB db =>
      if db ∈ s.committed.databases then ({ s with currentDB := some db }, .ok [])
      else (s, .error .databaseNotExists)
  | .createDB ifNotExists db =>
      if db ∈ s.committed.databases then
        if ifNotExists then (s, .ok []) else (s, .error .duplicateKey)
      else
        ({ s with committed := { s.committed with
            databases := s.committed.databases ++ [db] } }, .ok [])
  | .createTable ifNotExists db tbl =>
      if (db, tbl) ∈ s.committed.tables then
        if ifNotExists then (s, .ok []) else (s, .error .duplicateKey)
      else ({ s with committed := s.committed.addTable db tbl }, .ok [])
  | .selectVariableValue db tbl name =>
      if (db, tbl) ∈ s.committed.tables then
        let s := if s.pending.isNone then { s with pending := some s.committed } else s
        (s, .ok [selectRows s.view db tbl name])
      else (s, .error .tableNotExists)
  | .beginTxn => ({ s with pending := some s.committed }, .ok [])
  | .commitTxn =>
      match s.pending with
      | some p => ({ s with committed := p, pending := none }, .ok [])
      | none => (s, .ok [])
  | .insertUserRow h u p privs =>
      let v := s.view
      if ("mysql", "user") ∈ v.tables then
        if v.userRows.any (fun r => r.host = h ∧ r.user = u) then
          (s, .error .duplicateKey)
        else (s.setView { v with userRows := v.userRows ++ [⟨h, u, p, privs⟩] }, .ok [])
      else (s, .error .tableNotExists)
  | .insertGlobalVariables rows =>
      let v := s.view
      if ("mysql", "GLOBAL_VARIABLES") ∈ v.tables then
        if keysFresh (v.globalVarRows.map Prod.fst) rows then
          (s.setView { v with globalVarRows := v.globalVarRows ++ rows }, .ok [])
        else (s, .error .duplicateKey)
      else (s, .error .tableNotExists)
  | .insertTidbOnDupKeyUpdate name value comment valueOnDup =>
      let v := s.view
      if ("mysql", "tidb") ∈ v.tables then
        if v.tidbRows.any (fun r => r.1 = name) then
          (s.setView { v with tidbRows := v.tidbRows.map (fun r =>
              if r.1 = name then (r.1, valueOnDup, r.2.2) else r) }, .ok [])
        else
          (s.setView { v with tidbRows := v.tidbRows ++ [(name, value, comment)] }, .ok [])
      else (s, .error .tableNotExists)

/-- Modelled from the spec: `FinishTxn(rollback)` of the external executor
(spec section 6, `commit(errorOccurred bool)`): ends the open transaction,
publishing its snapshot when `rollback` is false; appends a trace event. -/
def finishTxn (s₀ : SessionState) (rollback : Bool) :
    SessionState × Except ExecErr Unit :=
  let s := { s₀ with trace := s₀.trace ++ [Event.finishTxn rollback] }
  if rollback then ({ s with pending := none }, .ok ())
  else
    match s.pending with
    | some p => ({ s with committed := p, pending := none }, .ok ())
    | none => (s, .ok ())

def systemDB : String := "mysql"

def tidbTable : String := "tidb"

def globalVariablesTable : String := "GLOBAL_VARIABLES"

def bootstrappedVar : String := "bootstrapped"

def bootstrappedVarTrue : String := "True"

/-- Outcome of a code path that may call `log.Fatal`: the process either
continues with a session state and a value, or aborts fatally.  On a fatal
abort the pending transaction snapshot dies with the process; the committed
store is what remains observable. -/
inductive Outcome (α : Type) where
  | ok (s : SessionState) (a : α)
  | fatal (s : SessionState)
deriving Repr, DecidableEq

/-- Whether the process survived. -/
def Outcome.isOk {α : Type} : Outcome α → Bool
  | .ok _ _ => true
  | .fatal _ => false

/-- The session state at the end of the path (at the abort point for a
fatal outcome). -/
def Outcome.state {α : Type} : Outcome α → SessionState
  | .ok s _ => s
  | .fatal s => s

/-- `mustExecute`: execute the statement; any error is `log.Fatal`. -/
def mustExecute (s : SessionState) (st : Stmt) : Outcome Unit :=
  match execute s st with
  | (s', .ok _) => .ok s' ()
  | (s', .error _) => .fatal s'

/-- Sequencing of consecutive `mustExecute` calls. -/
def mustExecuteAll : SessionState → List Stmt → Outcome Unit
  | s, [] => .ok s ()
  | s, st :: rest =>
      match mustExecute s st with
      | .ok s' _ => mustExecuteAll s' rest
      | .fatal s' => .fatal s'

/-- The statements of `doDDLWorks`, in source order: the test database, the
system database, the user table, the three privilege tables, the global
variables table, the proc table, the performance_schema database and its
three tables, and last the TiDB (bootstrap flag) table.  Every one carries
IF NOT EXISTS. -/
def CreateUserTable : Stmt := .createTable true systemDB "user"

def CreateDBPrivTable : Stmt := .createTable true systemDB "db"

def CreateTablePrivTable : Stmt := .createTable true systemDB "tables_priv"

def CreateColumnPrivTable : Stmt := .createTable true systemDB "columns_priv"

def CreateGloablVariablesTable : Stmt := .createTable true systemDB globalVariablesTable

def CreateProcTable : Stmt := .createTable true systemDB "proc"

def CreateSomething1 : Stmt := .createTable true "performance_schema" "events_statements_current"

def CreateSomething2 : Stmt := .createTable true "performance_schema" "events_stages_history_long"

def CreateSomething3 : Stmt := .createTable true "performance_schema" "events_waits_history_long"

def CreateTiDBTable : Stmt := .createTable true systemDB tidbTable

def ddlStmts : List Stmt :=
  [ .createDB true "test",
    .createDB true systemDB,
    CreateUserTable,
    CreateDBPrivTable,
    CreateTablePrivTable,
    CreateColumnPrivTable,
    CreateGloablVariablesTable,
    CreateProcTable,
    .createDB true "performance_schema",
    CreateSomething1,
    CreateSomething2,
    CreateSomething3,
    CreateTiDBTable ]

/-- `doDDLWorks`: execute the DDL statements of the bootstrap stage, fatally
on any failure. -/
def doDDLWorks (s : SessionState) : Outcome Unit :=
  mustExecuteAll s ddlStmts

/-- The statements of `doDMLWorks`, in source order: BEGIN; the default user
row (wildcard host, user root, empty password, twelve privilege columns set
to Y); one bulk insert into the global variables table with one row per
registry entry, the name lowercased and the value taken verbatim; the
bootstrap flag upsert (INSERT ... ON DUPLICATE KEY UPDATE
VARIABLE_VALUE="True"); COMMIT.  `sysVars` models the external registry
`variable.SysVars` as a list of (name, default value) pairs. -/
def dmlStmts (sysVars : List (String × String)) : List Stmt :=
  [ .beginTxn,
    .insertUserRow "%" "root" ""
      ["Y", "Y", "Y", "Y", "Y", "Y", "Y", "Y", "Y", "Y", "Y", "Y"],
    .insertGlobalVariables (sysVars.map (fun kv => (kv.1.toLower, kv.2))),
    .insertTidbOnDupKeyUpdate bootstrappedVar bootstrappedVarTrue
      "Bootstrap flag. Do not delete." bootstrappedVarTrue,
    .commitTxn ]

/-- `doDMLWorks`: execute the DML statements of the bootstrap stage, fatally
on any failure. -/
def doDMLWorks (sysVars : List (String × String)) (s : SessionState) : Outcome Unit :=
  mustExecuteAll s (dmlStmts sysVars)

/-- Errors returned (not fatally raised) by the probe. -/
inductive ProbeErr where
  | wrongRecordsetCount
  | execFailed (e : ExecErr)
deriving Repr, DecidableEq

/-- `checkBootstrappedVar`: read the bootstrapped variable from the TiDB
table.  A table-not-exists failure of the read means not initialized; other
read failures are errors.  More or fewer than one recordset is the explicit
"Wrong number of Recordset" error.  A nil first row with a nil error from
Next makes the source return `(false, errors.Trace(nil))`, and
`errors.Trace(nil)` is nil, so zero rows yield `(false, nil)`.  When the
single row's value equals "True" the probe calls `FinishTxn(false)` before
returning. -/
def checkBootstrappedVar (s : SessionState) :
    SessionState × Except ProbeErr Bool :=
  match execute s (.selectVariableValue systemDB tidbTable bootstrappedVar) with
  | (s₁, .error e) =>
      if e = .tableNotExists then (s₁, .ok false)
      else (s₁, .error (.execFailed e))
  | (s₁, .ok rs) =>
      match rs with
      | [r] =>
          match r with
          | [] => (s₁, .ok false)
          | v :: _ =>
              if v = bootstrappedVarTrue then
                match finishTxn s₁ false with
                | (s₂, .ok _) => (s₂, .ok true)
                | (s₂, .error e) => (s₂, .error (.execFailed e))
              else (s₁, .ok false)
      | _ => (s₁, .error .wrongRecordsetCount)

/-- Outcome of `checkBootstrapped`: a returned boolean, a returned error, or
a fatal abort (when the USE of the system database fails with anything other
than database-not-exists). -/
inductive ProbeOutcome where
  | ok (s : SessionState) (b : Bool)
  | err (s : SessionState) (e : ProbeErr)
  | fatal (s : SessionState)
deriving Repr, DecidableEq

/-- The returned value of a probe outcome, with the state erased. -/
inductive ProbeRes where
  | ok (b : Bool)
  | err (e : ProbeErr)
  | fatal
deriving Repr, DecidableEq

def ProbeOutcome.res : ProbeOutcome → ProbeRes
  | .ok _ b => .ok b
  | .err _ e => .err e
  | .fatal _ => .fatal

def ProbeOutcome.state : ProbeOutcome → SessionState
  | .ok s _ => s
  | .err s _ => s
  | .fatal s => s

/-- The second half of `checkBootstrapped`: consult the bootstrapped
variable and propagate its error, if any. -/
def checkBootstrappedCont (s : SessionState) : ProbeOutcome :=
  match checkBootstrappedVar s with
  | (s₁, .ok v) => .ok s₁ v
  | (s₁, .error e) => .err s₁ e

/-- `checkBootstrapped`: USE the system database — a database-not-exists
failure is benign (the store is not yet initialized), any other failure is
`log.Fatal` — then check the bootstrapped variable. -/
def checkBootstrapped (s : SessionState) : ProbeOutcome :=
  match execute s (.useDB systemDB) with
  | (s₁, .ok _) => checkBootstrappedCont s₁
  | (s₁, .error .databaseNotExists) => checkBootstrappedCont s₁
  | (s₁, .error _) => .fatal s₁

/-- `bootstrap`: probe; `log.Fatal` on a probe error; return immediately when
already bootstrapped; otherwise run the DDL works then the DML works. -/
def bootstrap (sysVars : List (String × String)) (s : SessionState) : Outcome Unit :=
  match checkBootstrapped s with
  | .fatal s₁ => .fatal s₁
  | .err s₁ _ => .fatal s₁
  | .ok s₁ b =>
      if b then .ok s₁ ()
      else
        match doDDLWorks s₁ with
        | .ok s₂ _ => doDMLWorks sysVars s₂
        | .fatal s₂ => .fatal s₂

/-- The values of the bootstrap-flag rows: the VARIABLE_VALUE of every
`mysql.tidb` row whose VARIABLE_NAME is the bootstrapped variable. -/
def flagValues (c : Store) : List String :=
  (c.tidbRows.filter (fun r => r.1 = bootstrappedVar)).map (fun r => r.2.1)

/-- The trace event of the probe's USE statement. -/
def useEv : Event := .stmt (.useDB systemDB)

/-- The trace event of the probe's flag read. -/
def selEv : Event := .stmt (.selectVariableValue systemDB tidbTable bootstrappedVar)

/-- The trace event of the probe's FinishTxn(false) call. -/
def finEv : Event := .finishTxn false

/-- The session right after the probe's USE statement: the statement is
traced; the current database changes exactly when the system database
exists; a database-not-exists failure is benign. -/
def afterUse (s : SessionState) : SessionState :=
  if systemDB ∈ s.committed.databases then
    { s with trace := s.trace ++ [useEv], currentDB := some systemDB }
  else { s with trace := s.trace ++ [useEv] }

/-- Ensure a database exists (effect of CREATE DATABASE IF NOT EXISTS). -/
def ensureDB (c : Store) (db : String) : Store :=
  if db ∈ c.databases then c else { c with databases := c.databases ++ [db] }

/-- Ensure a table exists (effect of CREATE TABLE if not exists). -/
def ensureTable (c : Store) (db tbl : String) : Store :=
  if (db, tbl) ∈ c.tables then c else c.addTable db tbl

/-- Effect of one Installer statement on the committed store. -/
def applyDDLStmt (c : Store) : Stmt → Store
  | .createDB _ db => ensureDB c db
  | .createTable _ db tbl => ensureTable c db tbl
  | _ => c

/-- Effect of the whole Installer on the committed store. -/
def applyDDL (c : Store) : Store :=
  ddlStmts.foldl applyDDLStmt c

/-- The trace events of one Installer run. -/
def ddlEvents : List Event :=
  ddlStmts.map Event.stmt

/-- All catalog objects the Installer creates. -/
def ddlPresent (c : Store) : Prop :=
  "test" ∈ c.databases ∧ systemDB ∈ c.databases ∧
  "performance_schema" ∈ c.databases ∧
  (systemDB, "user") ∈ c.tables ∧ (systemDB, "db") ∈ c.tables ∧
  (systemDB, "tables_priv") ∈ c.tables ∧ (systemDB, "columns_priv") ∈ c.tables ∧
  (systemDB, globalVariablesTable) ∈ c.tables ∧ (systemDB, "proc") ∈ c.tables ∧
  ("performance_schema", "events_statements_current") ∈ c.tables ∧
  ("performance_schema", "events_stages_history_long") ∈ c.tables ∧
  ("performance_schema", "events_waits_history_long") ∈ c.tables ∧
  (systemDB, tidbTable) ∈ c.tables

/-- The flag values of a bare row list. -/
def flagValuesRows (rows : List (String × String × String)) : List String :=
  (rows.filter (fun r => r.1 = bootstrappedVar)).map (fun r => r.2.1)

/-- After BEGIN: a fresh snapshot of the committed store is pending. -/
def dmlS1 (s : SessionState) : SessionState :=
  { s with pending := some s.committed,
           trace := s.trace ++ [Event.stmt .beginTxn] }

/-- The default-principal insert applied to a store. -/
def seedUser (c : Store) : Store :=
  { c with userRows := c.userRows ++
      [⟨"%", "root", "", ["Y", "Y", "Y", "Y", "Y", "Y", "Y", "Y", "Y", "Y", "Y", "Y"]⟩] }

/-- After the default-principal insert. -/
def dmlS2 (s : SessionState) : SessionState :=
  { dmlS1 s with
    pending := some (seedUser s.committed)
    trace := (dmlS1 s).trace ++ [Event.stmt (.insertUserRow "%" "root" ""
      ["Y", "Y", "Y", "Y", "Y", "Y", "Y", "Y", "Y", "Y", "Y", "Y"])] }

/-- The global-variables bulk insert applied to a store. -/
def seedGV (vs : List (String × String)) (c : Store) : Store :=
  { c with globalVarRows := c.globalVarRows ++ vs.map (fun kv => (kv.1.toLower, kv.2)) }

/-- After the global-variables bulk insert. -/
def dmlS3 (vs : List (String × String)) (s : SessionState) : SessionState :=
  { dmlS2 s with
    pending := some (seedGV vs (seedUser s.committed))
    trace := (dmlS2 s).trace ++
      [Event.stmt (.insertGlobalVariables (vs.map (fun kv => (kv.1.toLower, kv.2))))] }

/-- The ON DUPLICATE KEY UPDATE rewrite of the flag rows. -/
def updFlagRows (rows : List (String × String × String)) :
    List (String × String × String) :=
  rows.map (fun r => if r.1 = bootstrappedVar then (r.1, bootstrappedVarTrue, r.2.2) else r)

/-- The flag upsert applied to a store. -/
def seedFlag (c : Store) : Store :=
  if c.tidbRows.any (fun r => r.1 = bootstrappedVar)
  then { c with tidbRows := updFlagRows c.tidbRows }
  else { c with tidbRows := c.tidbRows ++
      [(bootstrappedVar, bootstrappedVarTrue, "Bootstrap flag. Do not delete.")] }

/-- After the flag upsert. -/
def dmlS4 (vs : List (String × String)) (s : SessionState) : SessionState :=
  { dmlS3 vs s with
    pending := some (seedFlag (seedGV vs (seedUser s.committed)))
    trace := (dmlS3 vs s).trace ++
      [Event.stmt (.insertTidbOnDupKeyUpdate bootstrappedVar bootstrappedVarTrue
        "Bootstrap flag. Do not delete." bootstrappedVarTrue)] }

/-- After COMMIT: the seeded snapshot is published. -/
def dmlS5 (vs : List (String × String)) (s : SessionState) : SessionState :=
  { dmlS4 vs s with
    committed := seedFlag (seedGV vs (seedUser s.committed))
    pending := none
    trace := (dmlS4 vs s).trace ++ [Event.stmt .commitTxn] }

/-- Execute a prefix of statements, one after the other; modelling a run that
is interrupted after the prefix: every completed statement has taken effect,
the rest never ran. -/
def execList (s : SessionState) : List Stmt → SessionState
  | [] => s
  | st :: rest => execList (execute s st).1 rest

/-- The Loader's seed writes: the statements between BEGIN and COMMIT. -/
def isSeedWrite : Stmt → Bool
  | .insertUserRow _ _ _ _ => true
  | .insertGlobalVariables _ => true
  | .insertTidbOnDupKeyUpdate _ _ _ _ => true
  | _ => false

/-- A one-entry variable registry. -/
def demoVars : List (String × String) := [("Max_Allowed_Packet", "67108864")]

/-- A completely fresh store. -/
def freshStore : Store :=
  { databases := [], tables := [], userRows := [], globalVarRows := [], tidbRows := [] }

def freshSess : SessionState :=
  { committed := freshStore, pending := none, currentDB := none, trace := [] }

/-- The system database exists but the flag table does not. -/
def dbOnlyStore : Store := { freshStore with databases := ["mysql"] }

def dbOnlySess : SessionState :=
  { committed := dbOnlyStore, pending := none, currentDB := none, trace := [] }

/-- The flag table exists but holds no rows. -/
def zeroRowStore : Store :=
  { databases := ["mysql"], tables := [("mysql", "tidb")], userRows := [],
    globalVarRows := [], tidbRows := [] }

def zeroRowSess : SessionState :=
  { committed := zeroRowStore, pending := none, currentDB := none, trace := [] }

/-- The flag is set to "True". -/
def flagTrueStore : Store :=
  { zeroRowStore with tidbRows := [("bootstrapped", "True", "Bootstrap flag. Do not delete.")] }

def flagTrueSess : SessionState :=
  { committed := flagTrueStore, pending := none, currentDB := none, trace := [] }

/-- The flag row exists with a value other than "True". -/
def flagFalseStore : Store :=
  { zeroRowStore with tidbRows := [("bootstrapped", "False", "c")] }

def flagFalseSess : SessionState :=
  { committed := flagFalseStore, pending := none, currentDB := none, trace := [] }

/-- A session inside an open transaction whose snapshot holds a stale flag
row. -/
def staleSess : SessionState :=
  { committed := flagFalseStore, pending := some flagFalseStore,
    currentDB := none, trace := [] }

/-- Whether a statement carries IF NOT EXISTS semantics. -/
def usesIfNotExists : Stmt → Bool
  | .createDB b _ => b
  | .createTable b _ _ => b
  | _ => false

lemma checkBootstrapped_eq (s : SessionState) :
    checkBootstrapped s = checkBootstrappedCont (afterUse s) := by
  simp only [checkBootstrapped, execute, afterUse, useEv]
  by_cases h : systemDB ∈ s.committed.databases
  · rw [if_pos h, if_pos h]
  · rw [if_neg h, if_neg h]

lemma afterUse_committed (s : SessionState) : (afterUse s).committed = s.committed := by
  simp only [afterUse]; split <;> rfl

lemma afterUse_pending (s : SessionState) : (afterUse s).pending = s.pending := by
  simp only [afterUse]; split <;> rfl

lemma afterUse_trace (s : SessionState) : (afterUse s).trace = s.trace ++ [useEv] := by
  simp only [afterUse]; split <;> rfl

/-- On the system flag table, `selectRows` returns exactly the flag values. -/
lemma selectRows_system (c : Store) :
    selectRows c systemDB tidbTable bootstrappedVar = flagValues c := by
  simp [selectRows, flagValues, systemDB, tidbTable]

lemma probeVar_tableAbsent (s : SessionState)
    (h : (systemDB, tidbTable) ∉ s.committed.tables) :
    checkBootstrappedVar s =
      ({ s with trace := s.trace ++ [selEv] }, .ok false) := by
  simp only [checkBootstrappedVar, execute, selEv]
  rw [if_neg h]
  rfl

lemma probeVar_zeroRows (s : SessionState) (hp : s.pending = none)
    (ht : (systemDB, tidbTable) ∈ s.committed.tables)
    (hv : flagValues s.committed = []) :
    checkBootstrappedVar s =
      ({ s with trace := s.trace ++ [selEv], pending := some s.committed },
        .ok false) := by
  obtain ⟨c, p, cur, tr⟩ := s
  obtain rfl : p = none := hp
  simp only [checkBootstrappedVar, execute, selEv]
  rw [if_pos ht]
  simp [SessionState.view, selectRows_system, hv]

lemma probeVar_true (s : SessionState) (hp : s.pending = none)
    (ht : (systemDB, tidbTable) ∈ s.committed.tables)
    (t : List String)
    (hv : flagValues s.committed = bootstrappedVarTrue :: t) :
    checkBootstrappedVar s =
      ({ s with trace := s.trace ++ [selEv, finEv] }, .ok true) := by
  obtain ⟨c, p, cur, tr⟩ := s
  obtain rfl : p = none := hp
  simp only [checkBootstrappedVar, execute, selEv, finEv]
  rw [if_pos ht]
  simp [SessionState.view, selectRows_system, hv, finishTxn]

lemma probeVar_notTrue (s : SessionState) (hp : s.pending = none)
    (ht : (systemDB, tidbTable) ∈ s.committed.tables)
    (v : String) (t : List String)
    (hv : flagValues s.committed = v :: t) (hne : v ≠ bootstrappedVarTrue) :
    checkBootstrappedVar s =
      ({ s with trace := s.trace ++ [selEv], pending := some s.committed },
        .ok false) := by
  obtain ⟨c, p, cur, tr⟩ := s
  obtain rfl : p = none := hp
  simp only [checkBootstrappedVar, execute, selEv]
  rw [if_pos ht]
  simp [SessionState.view, selectRows_system, hv, hne]

lemma addTable_tables (c : Store) (db tbl : String) :
    (c.addTable db tbl).tables = c.tables ++ [(db, tbl)] := by
  simp only [Store.addTable]
  split <;> try rfl
  split <;> try rfl
  split <;> rfl

lemma addTable_databases (c : Store) (db tbl : String) :
    (c.addTable db tbl).databases = c.databases := by
  simp only [Store.addTable]
  split <;> try rfl
  split <;> try rfl
  split <;> rfl

lemma ensureDB_tables (c : Store) (db : String) :
    (ensureDB c db).tables = c.tables := by
  simp only [ensureDB]; split <;> rfl

lemma ensureTable_databases (c : Store) (db tbl : String) :
    (ensureTable c db tbl).databases = c.databases := by
  simp only [ensureTable]; split
  · rfl
  · exact addTable_databases c db tbl

lemma mem_ensureDB_iff (c : Store) (db d : String) :
    d ∈ (ensureDB c db).databases ↔ d ∈ c.databases ∨ d = db := by
  simp only [ensureDB]; split
  · rename_i h
    constructor
    · exact Or.inl
    · rintro (h' | rfl) <;> [exact h'; exact h]
  · simp [List.mem_append]

lemma mem_ensureTable_iff (c : Store) (db tbl : String) (x : String × String) :
    x ∈ (ensureTable c db tbl).tables ↔ x ∈ c.tables ∨ x = (db, tbl) := by
  simp only [ensureTable]; split
  · rename_i h
    constructor
    · exact Or.inl
    · rintro (h' | rfl) <;> [exact h'; exact h]
  · simp [addTable_tables, List.mem_append]

lemma exec_createDB_true (s : SessionState) (db : String) :
    execute s (.createDB true db) =
      ({ s with committed := ensureDB s.committed db,
                trace := s.trace ++ [Event.stmt (.createDB true db)] }, .ok []) := by
  simp only [execute, ensureDB]
  split <;> rfl

lemma exec_createTable_true (s : SessionState) (db tbl : String) :
    execute s (.createTable true db tbl) =
      ({ s with committed := ensureTable s.committed db tbl,
                trace := s.trace ++ [Event.stmt (.createTable true db tbl)] }, .ok []) := by
  simp only [execute, ensureTable]
  split <;> rfl

lemma mustExecute_createDB_true (s : SessionState) (db : String) :
    mustExecute s (.createDB true db) =
      .ok { s with committed := ensureDB s.committed db,
                   trace := s.trace ++ [Event.stmt (.createDB true db)] } () := by
  simp only [mustExecute, exec_createDB_true]

lemma mustExecute_createTable_true (s : SessionState) (db tbl : String) :
    mustExecute s (.createTable true db tbl) =
      .ok { s with committed := ensureTable s.committed db tbl,
                   trace := s.trace ++ [Event.stmt (.createTable true db tbl)] } () := by
  simp only [mustExecute, exec_createTable_true]

/-- The Installer never aborts: every statement of `doDDLWorks` carries
IF NOT EXISTS, so it runs to completion on every store; its effect on the
committed store is `applyDDL`, it leaves the open transaction and the
current database untouched, and it traces exactly the thirteen statements in
source order. -/
lemma doDDLWorks_eq (s : SessionState) :
    doDDLWorks s =
      .ok { s with committed := applyDDL s.committed,
                   trace := s.trace ++ ddlEvents } () := by
  simp only [doDDLWorks, ddlStmts, mustExecuteAll,
    mustExecute_createDB_true, mustExecute_createTable_true,
    CreateUserTable, CreateDBPrivTable, CreateTablePrivTable,
    CreateColumnPrivTable, CreateGloablVariablesTable, CreateProcTable,
    CreateSomething1, CreateSomething2, CreateSomething3, CreateTiDBTable,
    applyDDL, applyDDLStmt, ddlEvents, List.foldl_cons, List.foldl_nil,
    List.map_cons, List.map_nil, List.append_assoc, List.cons_append,
    List.nil_append]

lemma ddlPresent_applyDDL (c : Store) : ddlPresent (applyDDL c) := by
  simp only [applyDDL, ddlStmts, applyDDLStmt, List.foldl_cons, List.foldl_nil,
    CreateUserTable, CreateDBPrivTable, CreateTablePrivTable,
    CreateColumnPrivTable, CreateGloablVariablesTable, CreateProcTable,
    CreateSomething1, CreateSomething2, CreateSomething3, CreateTiDBTable,
    ddlPresent]
  refine ⟨?_, ?_, ?_, ?_, ?_, ?_, ?_, ?_, ?_, ?_, ?_, ?_, ?_⟩ <;>
    simp [mem_ensureDB_iff, mem_ensureTable_iff, ensureDB_tables,
      ensureTable_databases]

lemma applyDDL_of_present (c : Store) (h : ddlPresent c) : applyDDL c = c := by
  obtain ⟨h1, h2, h3, h4, h5, h6, h7, h8, h9, h10, h11, h12, h13⟩ := h
  simp only [applyDDL, ddlStmts, applyDDLStmt, List.foldl_cons, List.foldl_nil,
    CreateUserTable, CreateDBPrivTable, CreateTablePrivTable,
    CreateColumnPrivTable, CreateGloablVariablesTable, CreateProcTable,
    CreateSomething1, CreateSomething2, CreateSomething3, CreateTiDBTable,
    ensureDB, ensureTable, h1, h2, h3, h4, h5, h6, h7, h8, h9, h10, h11, h12,
    h13, if_pos]

/-- `applyDDL` is idempotent: re-running the Installer changes nothing. -/
lemma applyDDL_idem (c : Store) : applyDDL (applyDDL c) = applyDDL c :=
  applyDDL_of_present _ (ddlPresent_applyDDL c)

lemma exec_begin (s : SessionState) :
    execute s .beginTxn =
      ({ s with pending := some s.committed,
                trace := s.trace ++ [Event.stmt .beginTxn] }, .ok []) := rfl

lemma exec_commit_pending (s : SessionState) (p : Store) (hp : s.pending = some p) :
    execute s .commitTxn =
      ({ s with committed := p, pending := none,
                trace := s.trace ++ [Event.stmt .commitTxn] }, .ok []) := by
  obtain ⟨c, q, cur, tr⟩ := s
  obtain rfl : q = some p := hp
  rfl

lemma exec_insertUser_errTable (s : SessionState) (h u pw : String)
    (privs : List String)
    (ht : ("mysql", "user") ∉ s.view.tables) :
    execute s (.insertUserRow h u pw privs) =
      ({ s with trace := s.trace ++ [Event.stmt (.insertUserRow h u pw privs)] },
        .error .tableNotExists) := by
  simp only [execute]
  rw [if_neg (by simpa [SessionState.view] using ht)]

lemma exec_insertUser_errDup (s : SessionState) (h u pw : String)
    (privs : List String)
    (ht : ("mysql", "user") ∈ s.view.tables)
    (hd : (s.view.userRows.any fun r => r.host = h ∧ r.user = u) = true) :
    execute s (.insertUserRow h u pw privs) =
      ({ s with trace := s.trace ++ [Event.stmt (.insertUserRow h u pw privs)] },
        .error .duplicateKey) := by
  simp only [execute]
  rw [if_pos (by simpa [SessionState.view] using ht),
    if_pos (by simpa [SessionState.view] using hd)]

lemma exec_insertUser_ok (s : SessionState) (p : Store) (h u pw : String)
    (privs : List String) (hp : s.pending = some p)
    (ht : ("mysql", "user") ∈ p.tables)
    (hd : (p.userRows.any fun r => r.host = h ∧ r.user = u) = false) :
    execute s (.insertUserRow h u pw privs) =
      ({ s with pending := some { p with userRows := p.userRows ++ [⟨h, u, pw, privs⟩] },
                trace := s.trace ++ [Event.stmt (.insertUserRow h u pw privs)] },
        .ok []) := by
  obtain ⟨c, q, cur, tr⟩ := s
  obtain rfl : q = some p := hp
  simp only [execute, SessionState.view, SessionState.setView, Option.getD_some]
  rw [if_pos ht, if_neg (by simp only [hd]; simp)]

lemma exec_insertGV_errTable (s : SessionState) (rows : List (String × String))
    (ht : ("mysql", "GLOBAL_VARIABLES") ∉ s.view.tables) :
    execute s (.insertGlobalVariables rows) =
      ({ s with trace := s.trace ++ [Event.stmt (.insertGlobalVariables rows)] },
        .error .tableNotExists) := by
  simp only [execute]
  rw [if_neg (by simpa [SessionState.view] using ht)]

lemma exec_insertGV_errDup (s : SessionState) (rows : List (String × String))
    (ht : ("mysql", "GLOBAL_VARIABLES") ∈ s.view.tables)
    (hk : keysFresh (s.view.globalVarRows.map Prod.fst) rows = false) :
    execute s (.insertGlobalVariables rows) =
      ({ s with trace := s.trace ++ [Event.stmt (.insertGlobalVariables rows)] },
        .error .duplicateKey) := by
  simp only [execute]
  rw [if_pos (by simpa [SessionState.view] using ht),
    if_neg (by simp [SessionState.view] at hk ⊢; simp [hk])]

lemma exec_insertGV_ok (s : SessionState) (p : Store)
    (rows : List (String × String)) (hp : s.pending = some p)
    (ht : ("mysql", "GLOBAL_VARIABLES") ∈ p.tables)
    (hk : keysFresh (p.globalVarRows.map Prod.fst) rows = true) :
    execute s (.insertGlobalVariables rows) =
      ({ s with pending := some { p with globalVarRows := p.globalVarRows ++ rows },
                trace := s.trace ++ [Event.stmt (.insertGlobalVariables rows)] },
        .ok []) := by
  obtain ⟨c, q, cur, tr⟩ := s
  obtain rfl : q = some p := hp
  simp only [execute, SessionState.view, SessionState.setView, Option.getD_some]
  rw [if_pos ht, if_pos hk]

lemma exec_upsert_errTable (s : SessionState) (name v cm vd : String)
    (ht : ("mysql", "tidb") ∉ s.view.tables) :
    execute s (.insertTidbOnDupKeyUpdate name v cm vd) =
      ({ s with trace := s.trace ++ [Event.stmt (.insertTidbOnDupKeyUpdate name v cm vd)] },
        .error .tableNotExists) := by
  simp only [execute]
  rw [if_neg (by simpa [SessionState.view] using ht)]

lemma exec_upsert_upd (s : SessionState) (p : Store) (name v cm vd : String)
    (hp : s.pending = some p)
    (ht : ("mysql", "tidb") ∈ p.tables)
    (ha : (p.tidbRows.any fun r => r.1 = name) = true) :
    execute s (.insertTidbOnDupKeyUpdate name v cm vd) =
      ({ s with pending := some { p with tidbRows := p.tidbRows.map (fun r =>
              if r.1 = name then (r.1, vd, r.2.2) else r) },
                trace := s.trace ++ [Event.stmt (.insertTidbOnDupKeyUpdate name v cm vd)] },
        .ok []) := by
  obtain ⟨c, q, cur, tr⟩ := s
  obtain rfl : q = some p := hp
  simp only [execute, SessionState.view, SessionState.setView, Option.getD_some]
  rw [if_pos ht, if_pos ha]

lemma exec_upsert_ins (s : SessionState) (p : Store) (name v cm vd : String)
    (hp : s.pending = some p)
    (ht : ("mysql", "tidb") ∈ p.tables)
    (ha : (p.tidbRows.any fun r => r.1 = name) = false) :
    execute s (.insertTidbOnDupKeyUpdate name v cm vd) =
      ({ s with pending := some { p with tidbRows := p.tidbRows ++ [(name, v, cm)] },
                trace := s.trace ++ [Event.stmt (.insertTidbOnDupKeyUpdate name v cm vd)] },
        .ok []) := by
  obtain ⟨c, q, cur, tr⟩ := s
  obtain rfl : q = some p := hp
  simp only [execute, SessionState.view, SessionState.setView, Option.getD_some]
  rw [if_pos ht, if_neg (by simp only [ha]; simp)]

lemma flagValues_def (c : Store) : flagValues c = flagValuesRows c.tidbRows := rfl

/-- After the ON DUPLICATE KEY UPDATE branch of the flag upsert, the first
flag value is "True". -/
lemma upd_flagValues (rows : List (String × String × String))
    (hany : (rows.any fun r => r.1 = bootstrappedVar) = true) :
    ∃ t, flagValuesRows (rows.map (fun r =>
        if r.1 = bootstrappedVar then (r.1, bootstrappedVarTrue, r.2.2) else r))
      = bootstrappedVarTrue :: t := by
  induction rows with
  | nil => simp at hany
  | cons a l ih =>
      by_cases ha : a.1 = bootstrappedVar
      · refine ⟨flagValuesRows (l.map (fun r =>
          if r.1 = bootstrappedVar then (r.1, bootstrappedVarTrue, r.2.2) else r)), ?_⟩
        simp [flagValuesRows, ha]
      · simp only [List.any_cons, Bool.or_eq_true, decide_eq_true_eq] at hany
        rcases hany with hany | hany
        · exact absurd hany ha
        · obtain ⟨t, htv⟩ := ih hany
          refine ⟨t, ?_⟩
          simpa [flagValuesRows, ha] using htv

/-- After the insert branch of the flag upsert, the flag value list is
exactly ["True"]. -/
lemma ins_flagValues (rows : List (String × String × String)) (cm : String)
    (hany : (rows.any fun r => r.1 = bootstrappedVar) = false) :
    flagValuesRows (rows ++ [(bootstrappedVar, bootstrappedVarTrue, cm)])
      = [bootstrappedVarTrue] := by
  have hnil : rows.filter (fun r => decide (r.1 = bootstrappedVar)) = [] :=
    List.filter_eq_nil_iff.mpr (fun a ha => List.any_eq_false.mp hany a ha)
  simp [flagValuesRows, List.filter_append, hnil]

lemma mustExecuteAll_cons_of_ok {s s₁ : SessionState} {st : Stmt}
    {r : List (List String)} (hst : execute s st = (s₁, .ok r))
    (rest : List Stmt) :
    mustExecuteAll s (st :: rest) = mustExecuteAll s₁ rest := by
  simp [mustExecuteAll, mustExecute, hst]

lemma mustExecuteAll_cons_of_err {s s₁ : SessionState} {st : Stmt}
    {e : ExecErr} (hst : execute s st = (s₁, .error e)) (rest : List Stmt) :
    mustExecuteAll s (st :: rest) = .fatal s₁ := by
  simp [mustExecuteAll, mustExecute, hst]

lemma step_begin (s : SessionState) (rest : List Stmt) :
    mustExecuteAll s (.beginTxn :: rest) = mustExecuteAll (dmlS1 s) rest :=
  mustExecuteAll_cons_of_ok (exec_begin s) rest

lemma step_user_ok (s : SessionState) (rest : List Stmt)
    (ht : ("mysql", "user") ∈ s.committed.tables)
    (hd : (s.committed.userRows.any fun r => r.host = "%" ∧ r.user = "root") = false) :
    mustExecuteAll (dmlS1 s) (.insertUserRow "%" "root" ""
        ["Y", "Y", "Y", "Y", "Y", "Y", "Y", "Y", "Y", "Y", "Y", "Y"] :: rest) =
      mustExecuteAll (dmlS2 s) rest :=
  mustExecuteAll_cons_of_ok
    (exec_insertUser_ok (dmlS1 s) s.committed _ _ _ _ rfl ht hd) rest

lemma step_user_errTable (s : SessionState) (rest : List Stmt)
    (ht : ("mysql", "user") ∉ s.committed.tables) :
    mustExecuteAll (dmlS1 s) (.insertUserRow "%" "root" ""
        ["Y", "Y", "Y", "Y", "Y", "Y", "Y", "Y", "Y", "Y", "Y", "Y"] :: rest) =
      .fatal { dmlS1 s with trace := (dmlS1 s).trace ++
        [Event.stmt (.insertUserRow "%" "root" ""
          ["Y", "Y", "Y", "Y", "Y", "Y", "Y", "Y", "Y", "Y", "Y", "Y"])] } :=
  mustExecuteAll_cons_of_err
    (exec_insertUser_errTable (dmlS1 s) _ _ _ _ ht) rest

lemma step_user_errDup (s : SessionState) (rest : List Stmt)
    (ht : ("mysql", "user") ∈ s.committed.tables)
    (hd : (s.committed.userRows.any fun r => r.host = "%" ∧ r.user = "root") = true) :
    mustExecuteAll (dmlS1 s) (.insertUserRow "%" "root" ""
        ["Y", "Y", "Y", "Y", "Y", "Y", "Y", "Y", "Y", "Y", "Y", "Y"] :: rest) =
      .fatal { dmlS1 s with trace := (dmlS1 s).trace ++
        [Event.stmt (.insertUserRow "%" "root" ""
          ["Y", "Y", "Y", "Y", "Y", "Y", "Y", "Y", "Y", "Y", "Y", "Y"])] } :=
  mustExecuteAll_cons_of_err
    (exec_insertUser_errDup (dmlS1 s) _ _ _ _ ht hd) rest

lemma step_gv_ok (vs : List (String × String)) (s : SessionState) (rest : List Stmt)
    (ht : ("mysql", "GLOBAL_VARIABLES") ∈ s.committed.tables)
    (hk : keysFresh (s.committed.globalVarRows.map Prod.fst)
        (vs.map (fun kv => (kv.1.toLower, kv.2))) = true) :
    mustExecuteAll (dmlS2 s)
        (.insertGlobalVariables (vs.map (fun kv => (kv.1.toLower, kv.2))) :: rest) =
      mustExecuteAll (dmlS3 vs s) rest :=
  mustExecuteAll_cons_of_ok
    (exec_insertGV_ok (dmlS2 s) (seedUser s.committed) _ rfl ht hk) rest

lemma step_gv_errTable (vs : List (String × String)) (s : SessionState)
    (rest : List Stmt)
    (ht : ("mysql", "GLOBAL_VARIABLES") ∉ s.committed.tables) :
    mustExecuteAll (dmlS2 s)
        (.insertGlobalVariables (vs.map (fun kv => (kv.1.toLower, kv.2))) :: rest) =
      .fatal { dmlS2 s with trace := (dmlS2 s).trace ++
        [Event.stmt (.insertGlobalVariables (vs.map (fun kv => (kv.1.toLower, kv.2))))] } :=
  mustExecuteAll_cons_of_err
    (exec_insertGV_errTable (dmlS2 s) _ ht) rest

lemma step_gv_errDup (vs : List (String × String)) (s : SessionState)
    (rest : List Stmt)
    (ht : ("mysql", "GLOBAL_VARIABLES") ∈ s.committed.tables)
    (hk : keysFresh (s.committed.globalVarRows.map Prod.fst)
        (vs.map (fun kv => (kv.1.toLower, kv.2))) = false) :
    mustExecuteAll (dmlS2 s)
        (.insertGlobalVariables (vs.map (fun kv => (kv.1.toLower, kv.2))) :: rest) =
      .fatal { dmlS2 s with trace := (dmlS2 s).trace ++
        [Event.stmt (.insertGlobalVariables (vs.map (fun kv => (kv.1.toLower, kv.2))))] } :=
  mustExecuteAll_cons_of_err
    (exec_insertGV_errDup (dmlS2 s) _ ht hk) rest

lemma step_flag (vs : List (String × String)) (s : SessionState) (rest : List Stmt)
    (ht : ("mysql", "tidb") ∈ s.committed.tables) :
    mustExecuteAll (dmlS3 vs s)
        (.insertTidbOnDupKeyUpdate bootstrappedVar bootstrappedVarTrue
          "Bootstrap flag. Do not delete." bootstrappedVarTrue :: rest) =
      mustExecuteAll (dmlS4 vs s) rest := by
  have hst : execute (dmlS3 vs s)
      (.insertTidbOnDupKeyUpdate bootstrappedVar bootstrappedVarTrue
        "Bootstrap flag. Do not delete." bootstrappedVarTrue) =
      (dmlS4 vs s, .ok []) := by
    by_cases ha : ((seedGV vs (seedUser s.committed)).tidbRows.any
        fun r => r.1 = bootstrappedVar) = true
    · rw [exec_upsert_upd (dmlS3 vs s) (seedGV vs (seedUser s.committed))
        _ _ _ _ rfl ht ha]
      simp [dmlS4, seedFlag, updFlagRows, ha]
    · replace ha : ((seedGV vs (seedUser s.committed)).tidbRows.any
          fun r => r.1 = bootstrappedVar) = false := Bool.eq_false_iff.mpr ha
      rw [exec_upsert_ins (dmlS3 vs s) (seedGV vs (seedUser s.committed))
        _ _ _ _ rfl ht ha]
      simp [dmlS4, seedFlag, updFlagRows, ha]
  exact mustExecuteAll_cons_of_ok hst rest

lemma step_flag_errTable (vs : List (String × String)) (s : SessionState)
    (rest : List Stmt)
    (ht : ("mysql", "tidb") ∉ s.committed.tables) :
    mustExecuteAll (dmlS3 vs s)
        (.insertTidbOnDupKeyUpdate bootstrappedVar bootstrappedVarTrue
          "Bootstrap flag. Do not delete." bootstrappedVarTrue :: rest) =
      .fatal { dmlS3 vs s with trace := (dmlS3 vs s).trace ++
        [Event.stmt (.insertTidbOnDupKeyUpdate bootstrappedVar bootstrappedVarTrue
          "Bootstrap flag. Do not delete." bootstrappedVarTrue)] } :=
  mustExecuteAll_cons_of_err
    (exec_upsert_errTable (dmlS3 vs s) _ _ _ _ ht) rest

lemma step_commit (vs : List (String × String)) (s : SessionState) :
    mustExecuteAll (dmlS4 vs s) [.commitTxn] = .ok (dmlS5 vs s) () := by
  rw [mustExecuteAll_cons_of_ok
    (exec_commit_pending (dmlS4 vs s) (seedFlag (seedGV vs (seedUser s.committed))) rfl)]
  rfl

lemma seedFlag_tables (c : Store) : (seedFlag c).tables = c.tables := by
  simp only [seedFlag]; split <;> rfl

lemma flagValues_seedFlag (c : Store) :
    ∃ t, flagValues (seedFlag c) = bootstrappedVarTrue :: t := by
  by_cases ha : (c.tidbRows.any fun r => r.1 = bootstrappedVar) = true
  · rw [flagValues_def]
    simp only [seedFlag, if_pos ha, updFlagRows]
    exact upd_flagValues c.tidbRows ha
  · replace ha : (c.tidbRows.any fun r => r.1 = bootstrappedVar) = false :=
      Bool.eq_false_iff.mpr ha
    rw [flagValues_def]
    simp only [seedFlag, ha, Bool.false_eq_true, if_false]
    exact ⟨[], ins_flagValues c.tidbRows _ ha⟩

/-- On a store satisfying the Loader's success conditions, `doDMLWorks` runs
to completion and publishes the seeded snapshot. -/
lemma doDMLWorks_ok_char (vs : List (String × String)) (s : SessionState)
    (htU : ("mysql", "user") ∈ s.committed.tables)
    (hdU : (s.committed.userRows.any fun r => r.host = "%" ∧ r.user = "root") = false)
    (htGV : ("mysql", "GLOBAL_VARIABLES") ∈ s.committed.tables)
    (hkGV : keysFresh (s.committed.globalVarRows.map Prod.fst)
        (vs.map (fun kv => (kv.1.toLower, kv.2))) = true)
    (htT : ("mysql", "tidb") ∈ s.committed.tables) :
    doDMLWorks vs s = .ok (dmlS5 vs s) () := by
  simp only [doDMLWorks, dmlStmts]
  rw [step_begin, step_user_ok s _ htU hdU, step_gv_ok vs s _ htGV hkGV,
    step_flag vs s _ htT, step_commit]

lemma doDMLWorks_errUserTable (vs : List (String × String)) (s : SessionState)
    (ht : ("mysql", "user") ∉ s.committed.tables) :
    doDMLWorks vs s = .fatal { dmlS1 s with trace := (dmlS1 s).trace ++
      [Event.stmt (.insertUserRow "%" "root" ""
        ["Y", "Y", "Y", "Y", "Y", "Y", "Y", "Y", "Y", "Y", "Y", "Y"])] } := by
  simp only [doDMLWorks, dmlStmts]
  rw [step_begin, step_user_errTable s _ ht]

lemma doDMLWorks_errUserDup (vs : List (String × String)) (s : SessionState)
    (ht : ("mysql", "user") ∈ s.committed.tables)
    (hd : (s.committed.userRows.any fun r => r.host = "%" ∧ r.user = "root") = true) :
    doDMLWorks vs s = .fatal { dmlS1 s with trace := (dmlS1 s).trace ++
      [Event.stmt (.insertUserRow "%" "root" ""
        ["Y", "Y", "Y", "Y", "Y", "Y", "Y", "Y", "Y", "Y", "Y", "Y"])] } := by
  simp only [doDMLWorks, dmlStmts]
  rw [step_begin, step_user_errDup s _ ht hd]

lemma doDMLWorks_errGVTable (vs : List (String × String)) (s : SessionState)
    (htU : ("mysql", "user") ∈ s.committed.tables)
    (hdU : (s.committed.userRows.any fun r => r.host = "%" ∧ r.user = "root") = false)
    (ht : ("mysql", "GLOBAL_VARIABLES") ∉ s.committed.tables) :
    doDMLWorks vs s = .fatal { dmlS2 s with trace := (dmlS2 s).trace ++
      [Event.stmt (.insertGlobalVariables (vs.map (fun kv => (kv.1.toLower, kv.2))))] } := by
  simp only [doDMLWorks, dmlStmts]
  rw [step_begin, step_user_ok s _ htU hdU, step_gv_errTable vs s _ ht]

lemma doDMLWorks_errGVDup (vs : List (String × String)) (s : SessionState)
    (htU : ("mysql", "user") ∈ s.committed.tables)
    (hdU : (s.committed.userRows.any fun r => r.host = "%" ∧ r.user = "root") = false)
    (ht : ("mysql", "GLOBAL_VARIABLES") ∈ s.committed.tables)
    (hk : keysFresh (s.committed.globalVarRows.map Prod.fst)
        (vs.map (fun kv => (kv.1.toLower, kv.2))) = false) :
    doDMLWorks vs s = .fatal { dmlS2 s with trace := (dmlS2 s).trace ++
      [Event.stmt (.insertGlobalVariables (vs.map (fun kv => (kv.1.toLower, kv.2))))] } := by
  simp only [doDMLWorks, dmlStmts]
  rw [step_begin, step_user_ok s _ htU hdU, step_gv_errDup vs s _ ht hk]

lemma doDMLWorks_errFlagTable (vs : List (String × String)) (s : SessionState)
    (htU : ("mysql", "user") ∈ s.committed.tables)
    (hdU : (s.committed.userRows.any fun r => r.host = "%" ∧ r.user = "root") = false)
    (htGV : ("mysql", "GLOBAL_VARIABLES") ∈ s.committed.tables)
    (hkGV : keysFresh (s.committed.globalVarRows.map Prod.fst)
        (vs.map (fun kv => (kv.1.toLower, kv.2))) = true)
    (ht : ("mysql", "tidb") ∉ s.committed.tables) :
    doDMLWorks vs s = .fatal { dmlS3 vs s with trace := (dmlS3 vs s).trace ++
      [Event.stmt (.insertTidbOnDupKeyUpdate bootstrappedVar bootstrappedVarTrue
        "Bootstrap flag. Do not delete." bootstrappedVarTrue)] } := by
  simp only [doDMLWorks, dmlStmts]
  rw [step_begin, step_user_ok s _ htU hdU, step_gv_ok vs s _ htGV hkGV,
    step_flag_errTable vs s _ ht]

/-- The post-state of a successful Loader run: the transaction is closed, the
flag table exists, the first flag value is "True", exactly the five Loader
statements were traced, and the current database is untouched. -/
lemma dml_ok_post (vs : List (String × String)) (s s' : SessionState)
    (h : doDMLWorks vs s = .ok s' ()) :
    s'.pending = none ∧
    (systemDB, tidbTable) ∈ s'.committed.tables ∧
    (∃ t, flagValues s'.committed = bootstrappedVarTrue :: t) ∧
    s'.trace = s.trace ++ (dmlStmts vs).map Event.stmt ∧
    s'.currentDB = s.currentDB := by
  by_cases htU : ("mysql", "user") ∈ s.committed.tables
  · by_cases hdU : (s.committed.userRows.any fun r =>
        r.host = "%" ∧ r.user = "root") = true
    · rw [doDMLWorks_errUserDup vs s htU hdU] at h
      simp at h
    · replace hdU := Bool.eq_false_iff.mpr hdU
      by_cases htGV : ("mysql", "GLOBAL_VARIABLES") ∈ s.committed.tables
      · by_cases hkGV : keysFresh (s.committed.globalVarRows.map Prod.fst)
            (vs.map (fun kv => (kv.1.toLower, kv.2))) = true
        · by_cases htT : ("mysql", "tidb") ∈ s.committed.tables
          · rw [doDMLWorks_ok_char vs s htU hdU htGV hkGV htT] at h
            injection h with h1 h2
            subst h1
            refine ⟨rfl, ?_, ?_, ?_, rfl⟩
            · show (systemDB, tidbTable) ∈
                (seedFlag (seedGV vs (seedUser s.committed))).tables
              rw [seedFlag_tables]
              exact htT
            · exact flagValues_seedFlag _
            · show (dmlS5 vs s).trace = _
              simp [dmlS5, dmlS4, dmlS3, dmlS2, dmlS1, dmlStmts]
          · rw [doDMLWorks_errFlagTable vs s htU hdU htGV hkGV htT] at h
            simp at h
        · replace hkGV := Bool.eq_false_iff.mpr hkGV
          rw [doDMLWorks_errGVDup vs s htU hdU htGV hkGV] at h
          simp at h
      · rw [doDMLWorks_errGVTable vs s htU hdU htGV] at h
        simp at h
  · rw [doDMLWorks_errUserTable vs s htU] at h
    simp at h

/-- A fatal Loader run leaves the committed store untouched: every statement
before COMMIT writes only to the pending snapshot, which dies with the
process. -/
lemma dml_fatal_committed (vs : List (String × String)) (s s' : SessionState)
    (h : doDMLWorks vs s = .fatal s') : s'.committed = s.committed := by
  by_cases htU : ("mysql", "user") ∈ s.committed.tables
  · by_cases hdU : (s.committed.userRows.any fun r =>
        r.host = "%" ∧ r.user = "root") = true
    · rw [doDMLWorks_errUserDup vs s htU hdU] at h
      injection h with h1
      subst h1
      rfl
    · replace hdU := Bool.eq_false_iff.mpr hdU
      by_cases htGV : ("mysql", "GLOBAL_VARIABLES") ∈ s.committed.tables
      · by_cases hkGV : keysFresh (s.committed.globalVarRows.map Prod.fst)
            (vs.map (fun kv => (kv.1.toLower, kv.2))) = true
        · by_cases htT : ("mysql", "tidb") ∈ s.committed.tables
          · rw [doDMLWorks_ok_char vs s htU hdU htGV hkGV htT] at h
            simp at h
          · rw [doDMLWorks_errFlagTable vs s htU hdU htGV hkGV htT] at h
            injection h with h1
            subst h1
            rfl
        · replace hkGV := Bool.eq_false_iff.mpr hkGV
          rw [doDMLWorks_errGVDup vs s htU hdU htGV hkGV] at h
          injection h with h1
          subst h1
          rfl
      · rw [doDMLWorks_errGVTable vs s htU hdU htGV] at h
        injection h with h1
        subst h1
        rfl
  · rw [doDMLWorks_errUserTable vs s htU] at h
    injection h with h1
    subst h1
    rfl

lemma checkBootstrapped_noTable (s : SessionState)
    (ht : (systemDB, tidbTable) ∉ s.committed.tables) :
    checkBootstrapped s =
      .ok { afterUse s with trace := (afterUse s).trace ++ [selEv] } false := by
  rw [checkBootstrapped_eq]
  simp only [checkBootstrappedCont]
  rw [probeVar_tableAbsent (afterUse s) (by rw [afterUse_committed]; exact ht)]

lemma checkBootstrapped_zeroRows (s : SessionState) (hp : s.pending = none)
    (ht : (systemDB, tidbTable) ∈ s.committed.tables)
    (hv : flagValues s.committed = []) :
    checkBootstrapped s =
      .ok { afterUse s with
            trace := (afterUse s).trace ++ [selEv]
            pending := some s.committed } false := by
  rw [checkBootstrapped_eq]
  simp only [checkBootstrappedCont]
  rw [probeVar_zeroRows (afterUse s) (by rw [afterUse_pending]; exact hp)
    (by rw [afterUse_committed]; exact ht) (by rw [afterUse_committed]; exact hv)]
  rw [afterUse_committed]

lemma checkBootstrapped_true (s : SessionState) (hp : s.pending = none)
    (ht : (systemDB, tidbTable) ∈ s.committed.tables) (t : List String)
    (hv : flagValues s.committed = bootstrappedVarTrue :: t) :
    checkBootstrapped s =
      .ok { afterUse s with trace := (afterUse s).trace ++ [selEv, finEv] } true := by
  rw [checkBootstrapped_eq]
  simp only [checkBootstrappedCont]
  rw [probeVar_true (afterUse s) (by rw [afterUse_pending]; exact hp)
    (by rw [afterUse_committed]; exact ht) t (by rw [afterUse_committed]; exact hv)]

lemma checkBootstrapped_notTrue (s : SessionState) (hp : s.pending = none)
    (ht : (systemDB, tidbTable) ∈ s.committed.tables) (v : String) (t : List String)
    (hv : flagValues s.committed = v :: t) (hne : v ≠ bootstrappedVarTrue) :
    checkBootstrapped s =
      .ok { afterUse s with
            trace := (afterUse s).trace ++ [selEv]
            pending := some s.committed } false := by
  rw [checkBootstrapped_eq]
  simp only [checkBootstrappedCont]
  rw [probeVar_notTrue (afterUse s) (by rw [afterUse_pending]; exact hp)
    (by rw [afterUse_committed]; exact ht) v t (by rw [afterUse_committed]; exact hv) hne]
  rw [afterUse_committed]

/-- Inside an open transaction a seed write never touches the committed
store, and it leaves the transaction open. -/
lemma execute_seedWrite_committed (s : SessionState) (st : Stmt)
    (hp : s.pending.isSome = true) (hw : isSeedWrite st = true) :
    (execute s st).1.committed = s.committed ∧
    (execute s st).1.pending.isSome = true := by
  obtain ⟨p, hp'⟩ := Option.isSome_iff_exists.mp hp
  obtain ⟨c, q, cur, tr⟩ := s
  obtain rfl : q = some p := hp'
  cases st <;>
    first
      | (simp only [execute, SessionState.view, SessionState.setView, Option.getD_some];
         split <;> (try split) <;> simp;
         done)
      | simp [isSeedWrite] at hw

/-- Executing a list of seed writes inside an open transaction never touches
the committed store. -/
lemma execList_seedWrites_committed (l : List Stmt) :
    ∀ s : SessionState, s.pending.isSome = true → l.all isSeedWrite = true →
      (execList s l).committed = s.committed := by
  induction l with
  | nil => intro s _ _; rfl
  | cons st rest ih =>
      intro s hp hl
      simp only [List.all_cons, Bool.and_eq_true] at hl
      obtain ⟨hc, hr⟩ := execute_seedWrite_committed s st hp hl.1
      rw [execList, ih _ hr hl.2, hc]

lemma bootstrap_probe_ok_true (vs : List (String × String)) (s s₁ : SessionState)
    (hcb : checkBootstrapped s = .ok s₁ true) : bootstrap vs s = .ok s₁ () := by
  simp only [bootstrap, hcb, if_true]

lemma bootstrap_probe_ok_false (vs : List (String × String)) (s s₁ : SessionState)
    (hcb : checkBootstrapped s = .ok s₁ false) :
    bootstrap vs s = doDMLWorks vs
      { s₁ with committed := applyDDL s₁.committed,
                trace := s₁.trace ++ ddlEvents } := by
  simp only [bootstrap, hcb, Bool.false_eq_true, if_false, doDDLWorks_eq]

lemma bootstrap_probe_err (vs : List (String × String)) (s s₁ : SessionState)
    (e : ProbeErr) (hcb : checkBootstrapped s = .err s₁ e) :
    bootstrap vs s = .fatal s₁ := by
  simp only [bootstrap, hcb]

lemma bootstrap_probe_fatal (vs : List (String × String)) (s s₁ : SessionState)
    (hcb : checkBootstrapped s = .fatal s₁) : bootstrap vs s = .fatal s₁ := by
  simp only [bootstrap, hcb]

/-- A run of `bootstrap` that returns leaves a store whose flag table exists
with first flag value "True", and no transaction open. -/
lemma bootstrap_ok_post (vs : List (String × String)) (s s₁ : SessionState)
    (hp : s.pending = none) (h : bootstrap vs s = .ok s₁ ()) :
    s₁.pending = none ∧ (systemDB, tidbTable) ∈ s₁.committed.tables ∧
    ∃ t, flagValues s₁.committed = bootstrappedVarTrue :: t := by
  by_cases hmem : (systemDB, tidbTable) ∈ s.committed.tables
  · cases hfv : flagValues s.committed with
    | nil =>
        rw [bootstrap_probe_ok_false vs s _
          (checkBootstrapped_zeroRows s hp hmem hfv)] at h
        obtain ⟨h1, h2, h3, -, -⟩ := dml_ok_post vs _ s₁ h
        exact ⟨h1, h2, h3⟩
    | cons v t =>
        by_cases hv : v = bootstrappedVarTrue
        · subst hv
          rw [bootstrap_probe_ok_true vs s _
            (checkBootstrapped_true s hp hmem t hfv)] at h
          injection h with h1 h2
          subst h1
          refine ⟨?_, ?_, ⟨t, ?_⟩⟩
          · show (afterUse s).pending = none
            rw [afterUse_pending]; exact hp
          · show (systemDB, tidbTable) ∈ (afterUse s).committed.tables
            rw [afterUse_committed]; exact hmem
          · show flagValues (afterUse s).committed = bootstrappedVarTrue :: t
            rw [afterUse_committed]; exact hfv
        · rw [bootstrap_probe_ok_false vs s _
            (checkBootstrapped_notTrue s hp hmem v t hfv hv)] at h
          obtain ⟨h1, h2, h3, -, -⟩ := dml_ok_post vs _ s₁ h
          exact ⟨h1, h2, h3⟩
  · rw [bootstrap_probe_ok_false vs s _ (checkBootstrapped_noTable s hmem)] at h
    obtain ⟨h1, h2, h3, -, -⟩ := dml_ok_post vs _ s₁ h
    exact ⟨h1, h2, h3⟩

set_option maxHeartbeats 4000000 in
/-- C1 (counterexample): on a store whose flag table exists with zero rows,
the probe does NOT return an error: `checkBootstrappedVar` returns
`(false, nil)` (the source hits `row == nil, err == nil` and returns
`errors.Trace(nil)`, which is nil), and `bootstrap` then runs to completion,
mutating the store — not a fatal stop with no further writes. -/
theorem zero_rows_probe_counterexample :
    (checkBootstrappedVar zeroRowSess).2 = Except.ok false ∧
    (bootstrap demoVars zeroRowSess).isOk = true ∧
    (bootstrap demoVars zeroRowSess).state.committed ≠ zeroRowSess.committed := by
  refine ⟨rfl, rfl, ?_⟩
  decide

/-- C1 (amended): a flag read that fails other than with table-not-exists
propagates an error, and an Execute result with other than exactly one
recordset yields the explicit "Wrong number of Recordset" error; but a read
that succeeds with zero rows is treated as not initialized: the probe
returns `(false, nil)` and bootstrap proceeds. -/
theorem probe_zero_rows_not_error (s : SessionState) (hp : s.pending = none)
    (ht : (systemDB, tidbTable) ∈ s.committed.tables)
    (hv : flagValues s.committed = []) :
    (checkBootstrappedVar s).2 = Except.ok false ∧
    (checkBootstrapped s).res = ProbeRes.ok false := by
  constructor
  · rw [probeVar_zeroRows s hp ht hv]
  · rw [checkBootstrapped_zeroRows s hp ht hv]
    rfl

theorem probe_zero_rows_not_error_witness :
    (checkBootstrappedVar zeroRowSess).2 = Except.ok false ∧
    (checkBootstrapped zeroRowSess).res = ProbeRes.ok false :=
  probe_zero_rows_not_error zeroRowSess rfl (by decide) rfl

/-- C2: the probe's verdict on the four store states of the spec: no system
namespace → false; namespace but no flag table → false; flag "True" → true;
flag with any other value → false — in each case with a nil error. -/
theorem probe_four_states (s : SessionState) (hp : s.pending = none) :
    ((systemDB ∉ s.committed.databases ∧ (systemDB, tidbTable) ∉ s.committed.tables) →
      (checkBootstrapped s).res = ProbeRes.ok false) ∧
    ((systemDB ∈ s.committed.databases ∧ (systemDB, tidbTable) ∉ s.committed.tables) →
      (checkBootstrapped s).res = ProbeRes.ok false) ∧
    (∀ t, (systemDB, tidbTable) ∈ s.committed.tables →
      flagValues s.committed = bootstrappedVarTrue :: t →
      (checkBootstrapped s).res = ProbeRes.ok true) ∧
    (∀ v t, (systemDB, tidbTable) ∈ s.committed.tables →
      flagValues s.committed = v :: t → v ≠ bootstrappedVarTrue →
      (checkBootstrapped s).res = ProbeRes.ok false) := by
  refine ⟨?_, ?_, ?_, ?_⟩
  · rintro ⟨-, ht⟩
    rw [checkBootstrapped_noTable s ht]
    rfl
  · rintro ⟨-, ht⟩
    rw [checkBootstrapped_noTable s ht]
    rfl
  · intro t ht hv
    rw [checkBootstrapped_true s hp ht t hv]
    rfl
  · intro v t ht hv hne
    rw [checkBootstrapped_notTrue s hp ht v t hv hne]
    rfl

theorem probe_four_states_witness :
    (checkBootstrapped freshSess).res = ProbeRes.ok false ∧
    (checkBootstrapped dbOnlySess).res = ProbeRes.ok false ∧
    (checkBootstrapped flagTrueSess).res = ProbeRes.ok true ∧
    (checkBootstrapped flagFalseSess).res = ProbeRes.ok false :=
  ⟨(probe_four_states freshSess rfl).1 ⟨by decide, by decide⟩,
   (probe_four_states dbOnlySess rfl).2.1 ⟨by decide, by decide⟩,
   (probe_four_states flagTrueSess rfl).2.2.1 [] (by decide) rfl,
   (probe_four_states flagFalseSess rfl).2.2.2 "False" [] (by decide) rfl (by decide)⟩

set_option maxHeartbeats 4000000 in
/-- C3: `bootstrap` calls the probe first; on "already bootstrapped" it
returns the probe's state unchanged (no further statements, no error); a
probe error or fatal is fatal; on "not bootstrapped" it runs the Installer
and then the Loader on the Installer's result, in that order. -/
theorem bootstrap_control_flow (vs : List (String × String)) :
    (∀ s s₁ : SessionState, checkBootstrapped s = .ok s₁ true →
      bootstrap vs s = .ok s₁ ()) ∧
    (∀ (s s₁ : SessionState) (e : ProbeErr), checkBootstrapped s = .err s₁ e →
      bootstrap vs s = .fatal s₁) ∧
    (∀ s s₁ : SessionState, checkBootstrapped s = .fatal s₁ →
      bootstrap vs s = .fatal s₁) ∧
    (∀ s s₁ s₂ : SessionState, checkBootstrapped s = .ok s₁ false →
      doDDLWorks s₁ = .ok s₂ () → bootstrap vs s = doDMLWorks vs s₂) := by
  refine ⟨?_, ?_, ?_, ?_⟩
  · exact fun s s₁ h => bootstrap_probe_ok_true vs s s₁ h
  · exact fun s s₁ e h => bootstrap_probe_err vs s s₁ e h
  · exact fun s s₁ h => bootstrap_probe_fatal vs s s₁ h
  · intro s s₁ s₂ hcb hd
    rw [bootstrap_probe_ok_false vs s s₁ hcb]
    rw [doDDLWorks_eq] at hd
    simp only [Outcome.ok.injEq] at hd
    rw [hd.1]

set_option maxHeartbeats 4000000 in
theorem bootstrap_control_flow_witness :
    bootstrap demoVars flagTrueSess =
      .ok ((checkBootstrapped flagTrueSess).state) () ∧
    bootstrap demoVars freshSess =
      doDMLWorks demoVars ((doDDLWorks ((checkBootstrapped freshSess).state)).state) :=
  ⟨(bootstrap_control_flow demoVars).1 flagTrueSess _ rfl,
   (bootstrap_control_flow demoVars).2.2.2 freshSess _ _ rfl rfl⟩

/-- C4: bootstrap is idempotent: after a completed run, a second run
succeeds, leaves the committed store exactly as it was, and issues only the
probe's USE and flag read (plus the FinishTxn release) — no Installer or
Loader writes. -/
theorem bootstrap_idempotent (vs : List (String × String)) (s s₁ : SessionState)
    (hp : s.pending = none) (h : bootstrap vs s = .ok s₁ ()) :
    (bootstrap vs s₁).isOk = true ∧
    (bootstrap vs s₁).state.committed = s₁.committed ∧
    (bootstrap vs s₁).state.trace = s₁.trace ++ [useEv, selEv, finEv] := by
  obtain ⟨h1, h2, t, h3⟩ := bootstrap_ok_post vs s s₁ hp h
  rw [bootstrap_probe_ok_true vs s₁ _ (checkBootstrapped_true s₁ h1 h2 t h3)]
  refine ⟨rfl, ?_, ?_⟩
  · show (afterUse s₁).committed = s₁.committed
    exact afterUse_committed s₁
  · show (afterUse s₁).trace ++ [selEv, finEv] = s₁.trace ++ [useEv, selEv, finEv]
    rw [afterUse_trace]
    simp

set_option maxHeartbeats 4000000 in
theorem bootstrap_idempotent_witness :
    (bootstrap demoVars ((bootstrap demoVars freshSess).state)).isOk = true ∧
    (bootstrap demoVars ((bootstrap demoVars freshSess).state)).state.committed =
      ((bootstrap demoVars freshSess).state).committed ∧
    (bootstrap demoVars ((bootstrap demoVars freshSess).state)).state.trace =
      ((bootstrap demoVars freshSess).state).trace ++ [useEv, selEv, finEv] :=
  bootstrap_idempotent demoVars freshSess ((bootstrap demoVars freshSess).state) rfl rfl

/-- C5: a completed Loader run traces exactly: BEGIN; the default-principal
insert (wildcard host, root, empty password, twelve privileges granted); one
bulk insert with one row per registry entry, names lowercased, values
verbatim; the flag upsert to "True"; COMMIT. -/
theorem loader_statement_sequence (vs : List (String × String)) (s s' : SessionState)
    (h : doDMLWorks vs s = .ok s' ()) :
    s'.trace = s.trace ++
      [Event.stmt .beginTxn,
       Event.stmt (.insertUserRow "%" "root" ""
         ["Y", "Y", "Y", "Y", "Y", "Y", "Y", "Y", "Y", "Y", "Y", "Y"]),
       Event.stmt (.insertGlobalVariables (vs.map (fun kv => (kv.1.toLower, kv.2)))),
       Event.stmt (.insertTidbOnDupKeyUpdate "bootstrapped" "True"
         "Bootstrap flag. Do not delete." "True"),
       Event.stmt .commitTxn] := by
  have ht := (dml_ok_post vs s s' h).2.2.2.1
  simpa [dmlStmts, bootstrappedVar, bootstrappedVarTrue] using ht

set_option maxHeartbeats 4000000 in
theorem loader_statement_sequence_witness :
    ((doDMLWorks demoVars ((doDDLWorks freshSess).state)).state).trace =
      ((doDDLWorks freshSess).state).trace ++
      [Event.stmt .beginTxn,
       Event.stmt (.insertUserRow "%" "root" ""
         ["Y", "Y", "Y", "Y", "Y", "Y", "Y", "Y", "Y", "Y", "Y", "Y"]),
       Event.stmt (.insertGlobalVariables
         (demoVars.map (fun kv => (kv.1.toLower, kv.2)))),
       Event.stmt (.insertTidbOnDupKeyUpdate "bootstrapped" "True"
         "Bootstrap flag. Do not delete." "True"),
       Event.stmt .commitTxn] :=
  loader_statement_sequence demoVars ((doDDLWorks freshSess).state) _ rfl

/-- C6: seeding is atomic: stopping a Loader run after any proper prefix of
its statements (all of which precede COMMIT) leaves the committed store
untouched, and a fatal Loader run leaves the committed store untouched — no
principal row, variable row or flag update becomes visible. -/
theorem loader_atomicity (vs : List (String × String)) (s : SessionState)
    (n : ℕ) (hn : n < (dmlStmts vs).length) :
    (execList s ((dmlStmts vs).take n)).committed = s.committed ∧
    (∀ s' : SessionState, doDMLWorks vs s = .fatal s' →
      s'.committed = s.committed) := by
  constructor
  · have h5 : (dmlStmts vs).length = 5 := rfl
    rw [h5] at hn
    interval_cases n
    · rfl
    · exact execList_seedWrites_committed [] _ rfl rfl
    · show (execList (execute s .beginTxn).1
          [.insertUserRow "%" "root" ""
            ["Y", "Y", "Y", "Y", "Y", "Y", "Y", "Y", "Y", "Y", "Y", "Y"]]).committed =
        s.committed
      exact execList_seedWrites_committed _ _ rfl rfl
    · show (execList (execute s .beginTxn).1
          [.insertUserRow "%" "root" ""
            ["Y", "Y", "Y", "Y", "Y", "Y", "Y", "Y", "Y", "Y", "Y", "Y"],
           .insertGlobalVariables (vs.map (fun kv => (kv.1.toLower, kv.2)))]).committed =
        s.committed
      exact execList_seedWrites_committed _ _ rfl rfl
    · show (execList (execute s .beginTxn).1
          [.insertUserRow "%" "root" ""
            ["Y", "Y", "Y", "Y", "Y", "Y", "Y", "Y", "Y", "Y", "Y", "Y"],
           .insertGlobalVariables (vs.map (fun kv => (kv.1.toLower, kv.2))),
           .insertTidbOnDupKeyUpdate bootstrappedVar bootstrappedVarTrue
             "Bootstrap flag. Do not delete." bootstrappedVarTrue]).committed =
        s.committed
      exact execList_seedWrites_committed _ _ rfl rfl
  · exact fun s' h => dml_fatal_committed vs s s' h

theorem loader_atomicity_witness :
    (execList freshSess ((dmlStmts demoVars).take 3)).committed =
      freshSess.committed ∧
    (∀ s' : SessionState, doDMLWorks demoVars freshSess = .fatal s' →
      s'.committed = freshSess.committed) :=
  loader_atomicity demoVars freshSess 3 (by decide)

/-- C7: the Loader's flag write is an upsert: when a flag row already exists
with any prior value, the statement succeeds (no duplicate-key failure) and
every flag row's value is overwritten to "True"; this statement is one of
the Loader's statements. -/
theorem flag_upsert_overwrites (vs : List (String × String)) (s : SessionState)
    (p : Store) (v cm : String) (hp : s.pending = some p)
    (ht : ("mysql", "tidb") ∈ p.tables)
    (hmem : (bootstrappedVar, v, cm) ∈ p.tidbRows) :
    (execute s (.insertTidbOnDupKeyUpdate bootstrappedVar bootstrappedVarTrue
        "Bootstrap flag. Do not delete." bootstrappedVarTrue)).2 = Except.ok [] ∧
    (∀ r ∈ ((execute s (.insertTidbOnDupKeyUpdate bootstrappedVar bootstrappedVarTrue
        "Bootstrap flag. Do not delete." bootstrappedVarTrue)).1.view).tidbRows,
      r.1 = bootstrappedVar → r.2.1 = bootstrappedVarTrue) ∧
    Stmt.insertTidbOnDupKeyUpdate bootstrappedVar bootstrappedVarTrue
      "Bootstrap flag. Do not delete." bootstrappedVarTrue ∈ dmlStmts vs := by
  have ha : (p.tidbRows.any fun r => r.1 = bootstrappedVar) = true :=
    List.any_eq_true.mpr ⟨(bootstrappedVar, v, cm), hmem, by simp⟩
  rw [exec_upsert_upd s p _ _ _ _ hp ht ha]
  refine ⟨rfl, ?_, by simp [dmlStmts]⟩
  intro r hr hr1
  simp only [SessionState.view, Option.getD_some] at hr
  obtain ⟨x, hx, rfl⟩ := List.mem_map.mp hr
  by_cases hx1 : x.1 = bootstrappedVar
  · simp [hx1]
  · simp only [if_neg hx1] at hr1 ⊢
    exact absurd hr1 hx1

theorem flag_upsert_overwrites_witness :
    (execute staleSess (.insertTidbOnDupKeyUpdate bootstrappedVar bootstrappedVarTrue
        "Bootstrap flag. Do not delete." bootstrappedVarTrue)).2 = Except.ok [] ∧
    (∀ r ∈ ((execute staleSess (.insertTidbOnDupKeyUpdate bootstrappedVar
        bootstrappedVarTrue "Bootstrap flag. Do not delete."
        bootstrappedVarTrue)).1.view).tidbRows,
      r.1 = bootstrappedVar → r.2.1 = bootstrappedVarTrue) ∧
    Stmt.insertTidbOnDupKeyUpdate bootstrappedVar bootstrappedVarTrue
      "Bootstrap flag. Do not delete." bootstrappedVarTrue ∈ dmlStmts demoVars :=
  flag_upsert_overwrites demoVars staleSess flagFalseStore "False" "c" rfl
    (by decide) (by decide)

set_option maxHeartbeats 4000000 in
/-- C8: the Installer issues exactly the thirteen creation statements in
source order (test database, system database, user table, the privilege
tables, the global-variables table, the proc table, the performance_schema
database and its tables, the TiDB flag table last), never aborts; every
statement carries IF NOT EXISTS; re-running it changes nothing; and any
statement failure under `mustExecute` is fatal. -/
theorem installer_contract :
    (∀ s : SessionState, (doDDLWorks s).isOk = true ∧
      (doDDLWorks s).state.trace = s.trace ++
        [Event.stmt (.createDB true "test"),
         Event.stmt (.createDB true "mysql"),
         Event.stmt (.createTable true "mysql" "user"),
         Event.stmt (.createTable true "mysql" "db"),
         Event.stmt (.createTable true "mysql" "tables_priv"),
         Event.stmt (.createTable true "mysql" "columns_priv"),
         Event.stmt (.createTable true "mysql" "GLOBAL_VARIABLES"),
         Event.stmt (.createTable true "mysql" "proc"),
         Event.stmt (.createDB true "performance_schema"),
         Event.stmt (.createTable true "performance_schema" "events_statements_current"),
         Event.stmt (.createTable true "performance_schema" "events_stages_history_long"),
         Event.stmt (.createTable true "performance_schema" "events_waits_history_long"),
         Event.stmt (.createTable true "mysql" "tidb")]) ∧
    (∀ st ∈ ddlStmts, usesIfNotExists st = true) ∧
    (∀ s : SessionState,
      (doDDLWorks (doDDLWorks s).state).state.committed =
        (doDDLWorks s).state.committed) ∧
    (∀ (s s₁ : SessionState) (st : Stmt) (e : ExecErr),
      execute s st = (s₁, Except.error e) → mustExecute s st = .fatal s₁) := by
  refine ⟨?_, ?_, ?_, ?_⟩
  · intro s
    rw [doDDLWorks_eq s]
    constructor
    · simp only [Outcome.isOk]
    · simp only [Outcome.state, ddlEvents, ddlStmts, CreateUserTable,
        CreateDBPrivTable, CreateTablePrivTable, CreateColumnPrivTable,
        CreateGloablVariablesTable, CreateProcTable, CreateSomething1,
        CreateSomething2, CreateSomething3, CreateTiDBTable, systemDB,
        tidbTable, globalVariablesTable, List.map_cons, List.map_nil]
  · intro st hst
    fin_cases hst <;> rfl
  · intro s
    rw [doDDLWorks_eq s, doDDLWorks_eq]
    simp only [Outcome.state]
    exact applyDDL_idem s.committed
  · intro s s₁ st e hst
    simp [mustExecute, hst]

set_option maxHeartbeats 4000000 in
theorem installer_contract_witness :
    ((doDDLWorks freshSess).isOk = true ∧
      (doDDLWorks freshSess).state.trace = freshSess.trace ++
        [Event.stmt (.createDB true "test"),
         Event.stmt (.createDB true "mysql"),
         Event.stmt (.createTable true "mysql" "user"),
         Event.stmt (.createTable true "mysql" "db"),
         Event.stmt (.createTable true "mysql" "tables_priv"),
         Event.stmt (.createTable true "mysql" "columns_priv"),
         Event.stmt (.createTable true "mysql" "GLOBAL_VARIABLES"),
         Event.stmt (.createTable true "mysql" "proc"),
         Event.stmt (.createDB true "performance_schema"),
         Event.stmt (.createTable true "performance_schema" "events_statements_current"),
         Event.stmt (.createTable true "performance_schema" "events_stages_history_long"),
         Event.stmt (.createTable true "performance_schema" "events_waits_history_long"),
         Event.stmt (.createTable true "mysql" "tidb")]) ∧
    usesIfNotExists (Stmt.createDB true "test") = true ∧
    (doDDLWorks (doDDLWorks freshSess).state).state.committed =
      (doDDLWorks freshSess).state.committed ∧
    mustExecute freshSess (.useDB "mysql") =
      .fatal ((execute freshSess (.useDB "mysql")).1) :=
  ⟨installer_contract.1 freshSess,
   installer_contract.2.1 _ (by decide),
   installer_contract.2.2.1 freshSess,
   installer_contract.2.2.2 freshSess _ _ ExecErr.databaseNotExists rfl⟩

/-- C9: when the flag read succeeds with one row equal to "True", the probe
calls FinishTxn(false) (the event is traced), the read transaction is closed
afterwards, the committed store is unchanged (nothing is committed by the
release), and the probe returns `(true, nil)`. -/
theorem probe_true_finishes_txn (s : SessionState) (hp : s.pending = none)
    (ht : (systemDB, tidbTable) ∈ s.committed.tables) (t : List String)
    (hv : flagValues s.committed = bootstrappedVarTrue :: t) :
    (checkBootstrappedVar s).2 = Except.ok true ∧
    (checkBootstrappedVar s).1.trace = s.trace ++ [selEv, finEv] ∧
    (checkBootstrappedVar s).1.pending = none ∧
    (checkBootstrappedVar s).1.committed = s.committed := by
  rw [probeVar_true s hp ht t hv]
  exact ⟨rfl, rfl, hp, rfl⟩

theorem probe_true_finishes_txn_witness :
    (checkBootstrappedVar flagTrueSess).2 = Except.ok true ∧
    (checkBootstrappedVar flagTrueSess).1.trace =
      flagTrueSess.trace ++ [selEv, finEv] ∧
    (checkBootstrappedVar flagTrueSess).1.pending = none ∧
    (checkBootstrappedVar flagTrueSess).1.committed = flagTrueSess.committed :=
  probe_true_finishes_txn flagTrueSess rfl (by decide) [] rfl

set_option maxHeartbeats 4000000 in
/-- C10 (implicit): when the flag row exists with a value other than "True",
the probe returns `(false, nil)` WITHOUT calling FinishTxn: no FinishTxn
event is traced and the read transaction stays open; the Installer then runs
without touching that open transaction, so bootstrap proceeds with the
probe's read transaction still pending. -/
theorem probe_stale_flag_leaves_txn_open (s : SessionState) (v : String)
    (t : List String) (hp : s.pending = none)
    (ht : (systemDB, tidbTable) ∈ s.committed.tables)
    (hv : flagValues s.committed = v :: t) (hne : v ≠ bootstrappedVarTrue) :
    (checkBootstrappedVar s).2 = Except.ok false ∧
    (checkBootstrappedVar s).1.pending = some s.committed ∧
    (checkBootstrappedVar s).1.trace = s.trace ++ [selEv] ∧
    Event.finishTxn false ∉ ((checkBootstrappedVar s).1.trace.drop s.trace.length) ∧
    (∀ s₁ : SessionState, (doDDLWorks s₁).state.pending = s₁.pending) := by
  rw [probeVar_notTrue s hp ht v t hv hne]
  refine ⟨rfl, rfl, rfl, ?_, ?_⟩
  · show Event.finishTxn false ∉ (s.trace ++ [selEv]).drop s.trace.length
    rw [List.drop_left]
    simp [selEv]
  · intro s₁
    rw [doDDLWorks_eq s₁]
    simp only [Outcome.state]

theorem probe_stale_flag_leaves_txn_open_witness :
    (checkBootstrappedVar flagFalseSess).2 = Except.ok false ∧
    (checkBootstrappedVar flagFalseSess).1.pending =
      some flagFalseSess.committed ∧
    (checkBootstrappedVar flagFalseSess).1.trace =
      flagFalseSess.trace ++ [selEv] ∧
    Event.finishTxn false ∉
      ((checkBootstrappedVar flagFalseSess).1.trace.drop flagFalseSess.trace.length) ∧
    (∀ s₁ : SessionState, (doDDLWorks s₁).state.pending = s₁.pending) :=
  probe_stale_flag_leaves_txn_open flagFalseSess "False" [] rfl (by decide) rfl
    (by decide)

end TidbBootstrap
